import Mathlib

/-!
Verification of the CVP (cost-volume-profit) calculator.

The arithmetic of the source is IEEE-754 double precision; it is modelled
here exactly over the rationals.  The basic calculator of
`src/costbreak-viz-15-main/src/pages/Index.tsx` (`calculateResults`) is
embedded together with its toast side effect, made explicit as a boolean
component of the return value.  The extended dashboard of
`src/src/components/AnalysisDashboard.tsx` (the recomputation effect body)
is embedded as a function from the form data and the sensitivity sliders to
the results record, the table rows and the chart points.
-/

set_option maxRecDepth 100000

namespace CVP

/-- Input record of the basic calculator (interface `FinancialData`). -/
structure FinancialData where
  units : ℚ
  fixedCost : ℚ
  variableCostPerUnit : ℚ
  sellingPricePerUnit : ℚ
deriving DecidableEq

/-- Output record of the basic calculator (interface `CalculationResults`). -/
structure CalculationResults where
  fixedCostPerUnit : ℚ
  totalVariableCost : ℚ
  totalCost : ℚ
  totalCostPerUnit : ℚ
  salesRevenue : ℚ
  profitOrLoss : ℚ
  breakEvenUnits : ℚ
  breakEvenRevenue : ℚ
deriving DecidableEq

/-- Embedding of `calculateResults` of `Index.tsx`, including its side
effect: the first component is the returned value (`null` as `none`), the
second records whether the `toast(...)` call inside the function ran. -/
def calculateResultsEff (d : FinancialData) : Option CalculationResults × Bool :=
  if d.sellingPricePerUnit ≤ d.variableCostPerUnit then
    (none, true)
  else if d.units ≤ 0 ∨ d.fixedCost < 0 ∨ d.variableCostPerUnit < 0 ∨ d.sellingPricePerUnit ≤ 0 then
    (none, false)
  else
    let fixedCostPerUnit := d.fixedCost / d.units
    let totalVariableCost := d.variableCostPerUnit * d.units
    let totalCost := d.fixedCost + totalVariableCost
    let totalCostPerUnit := totalCost / d.units
    let salesRevenue := d.sellingPricePerUnit * d.units
    let profitOrLoss := salesRevenue - totalCost
    let breakEvenUnits := d.fixedCost / (d.sellingPricePerUnit - d.variableCostPerUnit)
    let breakEvenRevenue := breakEvenUnits * d.sellingPricePerUnit
    (some ⟨fixedCostPerUnit, totalVariableCost, totalCost, totalCostPerUnit,
      salesRevenue, profitOrLoss, breakEvenUnits, breakEvenRevenue⟩, false)

/-- Returned value of `calculateResults` (`CalculationResults | null`). -/
def calculateResults (d : FinancialData) : Option CalculationResults :=
  (calculateResultsEff d).1

/-- Whether the destructive toast inside `calculateResults` was emitted. -/
def toastEmitted (d : FinancialData) : Bool :=
  (calculateResultsEff d).2

/-- Profit margin computed by the consumer `ResultsTable.tsx` line 45. -/
def profitMargin (r : CalculationResults) : ℚ :=
  r.profitOrLoss / r.salesRevenue * 100

/-! Extended dashboard (`AnalysisDashboard.tsx`). -/

/-- Input record of the dashboard (interface `FormData`). -/
structure FormData where
  units : ℚ
  fixedCost : ℚ
  variableCostPerUnit : ℚ
  sellingPricePerUnit : ℚ
  taxRate : ℚ
deriving DecidableEq

/-- Sensitivity slider state (`sensitivityChanges`). -/
structure SensitivityChanges where
  priceChange : ℚ
  variableCostChange : ℚ
  fixedCostChange : ℚ
  taxRateChange : ℚ
deriving DecidableEq

/-- Dashboard results record (interface `CalculationResults` of the dashboard). -/
structure DashboardResults where
  breakEvenUnits : ℚ
  breakEvenRevenue : ℚ
  totalRevenue : ℚ
  totalCost : ℚ
  profitBeforeTax : ℚ
  netProfit : ℚ
deriving DecidableEq

/-- Table row (interface `TableData`). -/
structure TableData where
  cantidad : ℚ
  costoFijoTotal : ℚ
  costoVariableTotal : ℚ
  costoTotal : ℚ
  ingresoTotal : ℚ
  gananciaOPerdida : ℚ
  utilidadNeta : ℚ
deriving DecidableEq

/-- Chart point (interface `ChartData`). -/
structure ChartData where
  cantidad : ℚ
  costoTotal : ℚ
  ingresoTotal : ℚ
  costoFijo : ℚ
  utilidadAntesImpuestos : ℚ
  utilidadNeta : ℚ
deriving DecidableEq

/-- Sensitivity-adjusted selling price (line 109). -/
def adjustedSellingPrice (f : FormData) (s : SensitivityChanges) : ℚ :=
  f.sellingPricePerUnit * (1 + s.priceChange / 100)

/-- Sensitivity-adjusted variable cost (line 110). -/
def adjustedVariableCost (f : FormData) (s : SensitivityChanges) : ℚ :=
  f.variableCostPerUnit * (1 + s.variableCostChange / 100)

/-- Sensitivity-adjusted fixed cost (line 111). -/
def adjustedFixedCost (f : FormData) (s : SensitivityChanges) : ℚ :=
  f.fixedCost * (1 + s.fixedCostChange / 100)

/-- Sensitivity-adjusted tax rate (line 112). -/
def adjustedTaxRate (f : FormData) (s : SensitivityChanges) : ℚ :=
  f.taxRate * (1 + s.taxRateChange / 100)

/-- Contribution margin on the adjusted parameters (line 115). -/
def contributionMargin (f : FormData) (s : SensitivityChanges) : ℚ :=
  adjustedSellingPrice f s - adjustedVariableCost f s

/-- Break-even quantity on the adjusted parameters (line 118). -/
def breakEvenUnitsD (f : FormData) (s : SensitivityChanges) : ℚ :=
  adjustedFixedCost f s / contributionMargin f s

/-- Dashboard headline results (lines 117-131). -/
def dashboardResults (f : FormData) (s : SensitivityChanges) : DashboardResults :=
  let breakEvenUnits := breakEvenUnitsD f s
  let breakEvenRevenue := breakEvenUnits * adjustedSellingPrice f s
  let totalRevenue := f.units * adjustedSellingPrice f s
  let totalCost := adjustedFixedCost f s + f.units * adjustedVariableCost f s
  let profitBeforeTax := totalRevenue - totalCost
  let netProfit := profitBeforeTax * (1 - adjustedTaxRate f s / 100)
  ⟨breakEvenUnits, breakEvenRevenue, totalRevenue, totalCost, profitBeforeTax, netProfit⟩

/-- Body of one table row at quantity `q` (lines 139-152, repeated at
lines 157-170 for the appended target row with identical formulas). -/
def mkTableRow (f : FormData) (s : SensitivityChanges) (q : ℚ) : TableData :=
  let costoVariableTotal := q * adjustedVariableCost f s
  let costoTotal := adjustedFixedCost f s + costoVariableTotal
  let ingresoTotal := q * adjustedSellingPrice f s
  let gananciaOPerdida := ingresoTotal - costoTotal
  let utilidadNeta := gananciaOPerdida * (1 - adjustedTaxRate f s / 100)
  ⟨q, adjustedFixedCost f s, costoVariableTotal, costoTotal, ingresoTotal,
    gananciaOPerdida, utilidadNeta⟩

/-- Loop bound of the 1..n table loop in line 138: `min(10, max(10, units))`. -/
def tableLoopBound (units : ℚ) : ℚ :=
  min 10 (max 10 units)

/-- Table generation (lines 133-172): the loop `for i = 1; i <= bound; i++`
pushes a row for each integer `i` with `1 ≤ i ≤ ⌊bound⌋`, then a row for the
exact target `units` is appended when `units > 10`. -/
def tableRows (f : FormData) (s : SensitivityChanges) : List TableData :=
  (List.range (Int.toNat ⌊tableLoopBound f.units⌋)).map
      (fun (k : ℕ) => mkTableRow f s ((k : ℚ) + 1)) ++
    (if 10 < f.units then [mkTableRow f s f.units] else [])

/-- Body of one chart point at quantity `q` (lines 183-194; the forced
break-even point of lines 199-210 and the forced target point of
lines 213-220 evaluate the same formulas at their quantity). -/
def mkChartPoint (f : FormData) (s : SensitivityChanges) (q : ℚ) : ChartData :=
  let costoTotal := adjustedFixedCost f s + q * adjustedVariableCost f s
  let ingresoTotal := q * adjustedSellingPrice f s
  let utilidadAntesImpuestos := ingresoTotal - costoTotal
  let utilidadNeta := utilidadAntesImpuestos * (1 - adjustedTaxRate f s / 100)
  ⟨q, costoTotal, ingresoTotal, adjustedFixedCost f s, utilidadAntesImpuestos, utilidadNeta⟩

/-- Chart range `Math.ceil(max(units, breakEvenUnits) * 1.2)` (line 176). -/
def chartRange (f : FormData) (s : SensitivityChanges) : ℤ :=
  ⌈max f.units (breakEvenUnitsD f s) * (6 / 5 : ℚ)⌉

/-- Chart step `Math.max(1, Math.floor(chartRange / 20))` (line 177). -/
def chartStep (f : FormData) (s : SensitivityChanges) : ℤ :=
  max 1 ⌊(chartRange f s : ℚ) / 20⌋

/-- Quantities visited by the loop `for q = 0; q <= hi; q += st` (line 182):
the multiples of `st` from `0` while they do not exceed `hi`. -/
def gridQuantities (hi st : ℤ) : List ℤ :=
  if hi < 0 then []
  else (List.range (hi.toNat / st.toNat + 1)).map (fun (k : ℕ) => (k : ℤ) * st)

/-- Evenly spaced chart points generated by the loop of lines 182-195. -/
def chartBase (f : FormData) (s : SensitivityChanges) : List ChartData :=
  (gridQuantities (chartRange f s) (chartStep f s)).map
    (fun (q : ℤ) => mkChartPoint f s (q : ℚ))

/-- The `.some(p => Math.abs(p.cantidad - x) < step / 2)` test of
lines 198 and 212. -/
def nearAny (l : List ChartData) (x : ℚ) (st : ℤ) : Bool :=
  l.any (fun p => decide (|p.cantidad - x| < (st : ℚ) / 2))

/-- Chart points after the conditional push of the forced break-even point
(lines 198-211): appended exactly when no generated point lies within half
a step of the break-even quantity. -/
def chartWithBE (f : FormData) (s : SensitivityChanges) : List ChartData :=
  if nearAny (chartBase f s) (breakEvenUnitsD f s) (chartStep f s) then chartBase f s
  else chartBase f s ++ [mkChartPoint f s (breakEvenUnitsD f s)]

/-- Chart points after the conditional push of the forced target point
(lines 212-221): appended exactly when no point so far (grid plus possibly
the break-even point) lies within half a step of the target `units`. -/
def chartWithTarget (f : FormData) (s : SensitivityChanges) : List ChartData :=
  if nearAny (chartWithBE f s) f.units (chartStep f s) then chartWithBE f s
  else chartWithBE f s ++ [mkChartPoint f s f.units]

/-- Chart series generation (lines 174-225): the grid, the two conditional
forced points, then the ascending sort by quantity of line 224. -/
def chartPoints (f : FormData) (s : SensitivityChanges) : List ChartData :=
  (chartWithTarget f s).mergeSort (fun a b => decide (a.cantidad ≤ b.cantidad))

/-- Full dashboard recomputation effect body (lines 99-239): when the
adjusted contribution margin is positive it produces the results record,
the table rows and the chart points; otherwise it resets the results to
the zero record and both sequences to empty (lines 226-238). -/
def dashboardCompute (f : FormData) (s : SensitivityChanges) :
    DashboardResults × List TableData × List ChartData :=
  if 0 < contributionMargin f s then
    (dashboardResults f s, tableRows f s, chartPoints f s)
  else
    (⟨0, 0, 0, 0, 0, 0⟩, [], [])

/-! Input handling: `parseFloat(value) || 0` in `InputField.handleChange`
and in the dashboard's `handleInputChange` (which first truncates the raw
text to 12 characters). -/

/-- Numeric value of a digit string, most significant digit first. -/
def digitsToNat (ds : List Char) : ℕ :=
  ds.foldl (fun acc c => acc * 10 + (c.toNat - 48)) 0

/-- Split a character list into its leading digits and the rest. -/
def splitDigits (cs : List Char) : List Char × List Char :=
  (cs.takeWhile Char.isDigit, cs.dropWhile Char.isDigit)

/-- Model of JavaScript `parseFloat` on a character list: skip leading
whitespace, read an optional sign, integer digits, an optional fraction
after a dot, and an optional integer exponent after `e`/`E`; the longest
valid prefix is converted and the rest ignored; `NaN` (no digits at all)
is `none`.  The special `Infinity` literals are not modelled. -/
def jsParseFloatCore (cs : List Char) : Option ℚ :=
  let cs1 := cs.dropWhile Char.isWhitespace
  let signAndRest : ℚ × List Char :=
    match cs1 with
    | c :: rest =>
      if c = '-' then (-1, rest) else if c = '+' then (1, rest) else (1, cs1)
    | [] => (1, [])
  let intAndRest := splitDigits signAndRest.2
  let fracAndRest : List Char × List Char :=
    match intAndRest.2 with
    | c :: rest => if c = '.' then splitDigits rest else ([], intAndRest.2)
    | [] => ([], [])
  if intAndRest.1 = [] ∧ fracAndRest.1 = [] then none
  else
    let mant : ℚ :=
      (digitsToNat intAndRest.1 : ℚ) +
        (digitsToNat fracAndRest.1 : ℚ) / (10 : ℚ) ^ fracAndRest.1.length
    let expo : ℤ :=
      match fracAndRest.2 with
      | c :: rest =>
        if c = 'e' ∨ c = 'E' then
          let esignAndRest : ℤ × List Char :=
            match rest with
            | d :: rest2 =>
              if d = '-' then (-1, rest2) else if d = '+' then (1, rest2) else (1, rest)
            | [] => (1, [])
          let expDigits := (splitDigits esignAndRest.2).1
          if expDigits = [] then 0 else esignAndRest.1 * (digitsToNat expDigits : ℤ)
        else 0
      | [] => 0
    some (signAndRest.1 * mant * (10 : ℚ) ^ expo)

/-- Model of JavaScript `parseFloat` on a string. -/
def jsParseFloat (s : String) : Option ℚ :=
  jsParseFloatCore s.data

/-- The `parseFloat(value) || 0` idiom: `NaN` and zero (the falsy numbers)
become `0`, every other parsed value passes through. -/
def jsOrZero (v : Option ℚ) : ℚ :=
  match v with
  | none => 0
  | some x => if x = 0 then 0 else x

/-- Value stored by `InputField.handleChange` for the raw text `s`. -/
def handleChangeValue (s : String) : ℚ :=
  jsOrZero (jsParseFloat s)

/-- The 12-character truncation of the dashboard's `handleInputChange`. -/
def truncate12 (s : String) : String :=
  if 12 < s.length then s.take 12 else s

/-- Value stored by the dashboard's `handleInputChange` for raw text `s`. -/
def handleInputChangeValue (s : String) : ℚ :=
  jsOrZero (jsParseFloat (truncate12 s))

/-! Helper lemmas. -/

/-- Destructor for a successful run of the basic calculator: the two guard
conditions both failed and the result record is the one built from the
formulas. -/
lemma calculateResults_some {d : FinancialData} {r : CalculationResults}
    (hb : calculateResults d = some r) :
    ¬d.sellingPricePerUnit ≤ d.variableCostPerUnit ∧
    ¬(d.units ≤ 0 ∨ d.fixedCost < 0 ∨ d.variableCostPerUnit < 0 ∨
        d.sellingPricePerUnit ≤ 0) ∧
    r = ⟨d.fixedCost / d.units, d.variableCostPerUnit * d.units,
        d.fixedCost + d.variableCostPerUnit * d.units,
        (d.fixedCost + d.variableCostPerUnit * d.units) / d.units,
        d.sellingPricePerUnit * d.units,
        d.sellingPricePerUnit * d.units -
          (d.fixedCost + d.variableCostPerUnit * d.units),
        d.fixedCost / (d.sellingPricePerUnit - d.variableCostPerUnit),
        d.fixedCost / (d.sellingPricePerUnit - d.variableCostPerUnit) *
          d.sellingPricePerUnit⟩ := by
  unfold calculateResults calculateResultsEff at hb
  by_cases h1 : d.sellingPricePerUnit ≤ d.variableCostPerUnit
  · simp [h1] at hb
  · by_cases h2 : d.units ≤ 0 ∨ d.fixedCost < 0 ∨ d.variableCostPerUnit < 0 ∨
        d.sellingPricePerUnit ≤ 0
    · simp [h1, h2] at hb
    · simp only [if_neg h1, if_neg h2] at hb
      exact ⟨h1, h2, (Option.some.injEq _ _ ▸ hb).symm⟩

/-- C1, counterexample: the claim says the break-even-unattainable outcome
is distinguishable, in the returned value itself, from the invalid-input
outcome.  It is not: the record ⟨10, 100, 5, 5⟩ satisfies every general
precondition but has zero contribution margin, the record ⟨0, 100, 1, 5⟩
violates the `units > 0` precondition but has positive margin, and
`calculateResults` returns the same value `null` (`none`) for both. -/
theorem c1_failures_not_distinguishable_counterexample :
    calculateResults ⟨10, 100, 5, 5⟩ = none ∧
    calculateResults ⟨0, 100, 1, 5⟩ = none ∧
    calculateResults ⟨10, 100, 5, 5⟩ = calculateResults ⟨0, 100, 1, 5⟩ ∧
    (⟨10, 100, 5, 5⟩ : FinancialData).sellingPricePerUnit ≤
      (⟨10, 100, 5, 5⟩ : FinancialData).variableCostPerUnit ∧
    0 < (⟨10, 100, 5, 5⟩ : FinancialData).units ∧
    0 ≤ (⟨10, 100, 5, 5⟩ : FinancialData).fixedCost ∧
    (⟨0, 100, 1, 5⟩ : FinancialData).units ≤ 0 ∧
    (⟨0, 100, 1, 5⟩ : FinancialData).variableCostPerUnit <
      (⟨0, 100, 1, 5⟩ : FinancialData).sellingPricePerUnit := by
  with_unfolding_all decide

/-- C1, amended: both failure kinds return the same `null` value, so they
are not distinguishable in the returned value; the break-even-unattainable
case is distinguished only by the toast side effect fired inside
`calculateResults`, emitted exactly when the contribution margin is zero
or negative; neither failure is thrown — every input returns normally with
`null`. -/
theorem c1_failure_signaling (d : FinancialData) :
    (toastEmitted d = true ↔ d.sellingPricePerUnit ≤ d.variableCostPerUnit) ∧
    (calculateResults d = none ↔
      d.sellingPricePerUnit ≤ d.variableCostPerUnit ∨ d.units ≤ 0 ∨
        d.fixedCost < 0 ∨ d.variableCostPerUnit < 0 ∨
        d.sellingPricePerUnit ≤ 0) := by
  by_cases h1 : d.sellingPricePerUnit ≤ d.variableCostPerUnit
  · simp [toastEmitted, calculateResults, calculateResultsEff, h1]
  · by_cases h2 : d.units ≤ 0 ∨ d.fixedCost < 0 ∨ d.variableCostPerUnit < 0 ∨
        d.sellingPricePerUnit ≤ 0
    · simp [toastEmitted, calculateResults, calculateResultsEff, h1, h2]
    · simp [toastEmitted, calculateResults, calculateResultsEff, h1, h2]

/-- Witness for the amended C1 at the zero-margin record ⟨10, 100, 5, 5⟩. -/
theorem c1_failure_signaling_witness :
    (toastEmitted ⟨10, 100, 5, 5⟩ = true ↔
      (⟨10, 100, 5, 5⟩ : FinancialData).sellingPricePerUnit ≤
        (⟨10, 100, 5, 5⟩ : FinancialData).variableCostPerUnit) ∧
    (calculateResults ⟨10, 100, 5, 5⟩ = none ↔
      (⟨10, 100, 5, 5⟩ : FinancialData).sellingPricePerUnit ≤
          (⟨10, 100, 5, 5⟩ : FinancialData).variableCostPerUnit ∨
        (⟨10, 100, 5, 5⟩ : FinancialData).units ≤ 0 ∨
        (⟨10, 100, 5, 5⟩ : FinancialData).fixedCost < 0 ∨
        (⟨10, 100, 5, 5⟩ : FinancialData).variableCostPerUnit < 0 ∨
        (⟨10, 100, 5, 5⟩ : FinancialData).sellingPricePerUnit ≤ 0) :=
  c1_failure_signaling ⟨10, 100, 5, 5⟩

set_option maxRecDepth 100000 in
/-- C2, counterexample: the claim says every precondition violation yields
a Rejected outcome with no results, table rows or chart points.  The
dashboard checks only the contribution margin: with `units = 0` (violating
`units > 0`) and positive margin it still produces a numeric results
record, ten table rows and a non-empty chart series. -/
theorem c2_dashboard_accepts_invalid_counterexample :
    (⟨0, 10000, 15, 25, 30⟩ : FormData).units ≤ 0 ∧
    0 < contributionMargin ⟨0, 10000, 15, 25, 30⟩ ⟨0, 0, 0, 0⟩ ∧
    (dashboardCompute ⟨0, 10000, 15, 25, 30⟩ ⟨0, 0, 0, 0⟩).1.breakEvenUnits = 1000 ∧
    (dashboardCompute ⟨0, 10000, 15, 25, 30⟩ ⟨0, 0, 0, 0⟩).2.1.length = 10 ∧
    (dashboardCompute ⟨0, 10000, 15, 25, 30⟩ ⟨0, 0, 0, 0⟩).2.2 ≠ [] := by
  with_unfolding_all decide

/-- C2, amended: in the basic calculator every precondition violation
(`units ≤ 0`, `fixedCost < 0`, `variableCostPerUnit < 0` or
`sellingPricePerUnit ≤ 0`) does return the Rejected value `null` and no
numeric results; the extended dashboard, however, validates only the
contribution margin, so precondition violations with positive margin still
produce results, rows and points there. -/
theorem c2_basic_rejects_invalid (d : FinancialData)
    (h : d.units ≤ 0 ∨ d.fixedCost < 0 ∨ d.variableCostPerUnit < 0 ∨
      d.sellingPricePerUnit ≤ 0) :
    calculateResults d = none := by
  by_cases h1 : d.sellingPricePerUnit ≤ d.variableCostPerUnit
  · simp [calculateResults, calculateResultsEff, h1]
  · simp [calculateResults, calculateResultsEff, h1, h]

/-- Witness for the amended C2 at the concrete record ⟨0, 100, 1, 5⟩. -/
theorem c2_basic_rejects_invalid_witness :
    ((⟨0, 100, 1, 5⟩ : FinancialData).units ≤ 0 ∨
      (⟨0, 100, 1, 5⟩ : FinancialData).fixedCost < 0 ∨
      (⟨0, 100, 1, 5⟩ : FinancialData).variableCostPerUnit < 0 ∨
      (⟨0, 100, 1, 5⟩ : FinancialData).sellingPricePerUnit ≤ 0) ∧
    calculateResults ⟨0, 100, 1, 5⟩ = none :=
  ⟨by with_unfolding_all decide, c2_basic_rejects_invalid ⟨0, 100, 1, 5⟩ (by with_unfolding_all decide)⟩

/-- C3: for every accepted input of the basic calculator and every
dashboard input with positive adjusted contribution margin, the returned
results equal the reference formulas of section 3 of the specification,
the dashboard ones computed on the sensitivity-adjusted parameters. -/
theorem c3_reference_formulas (d : FinancialData) (r : CalculationResults)
    (f : FormData) (s : SensitivityChanges)
    (hb : calculateResults d = some r) (hm : 0 < contributionMargin f s) :
    (r.totalVariableCost = d.variableCostPerUnit * d.units ∧
     r.totalCost = d.fixedCost + r.totalVariableCost ∧
     r.salesRevenue = d.sellingPricePerUnit * d.units ∧
     r.profitOrLoss = r.salesRevenue - r.totalCost ∧
     r.fixedCostPerUnit = d.fixedCost / d.units ∧
     r.totalCostPerUnit = r.totalCost / d.units ∧
     r.breakEvenUnits =
       d.fixedCost / (d.sellingPricePerUnit - d.variableCostPerUnit) ∧
     r.breakEvenRevenue = r.breakEvenUnits * d.sellingPricePerUnit) ∧
    ((dashboardCompute f s).1.totalRevenue =
       adjustedSellingPrice f s * f.units ∧
     (dashboardCompute f s).1.totalCost =
       adjustedFixedCost f s + adjustedVariableCost f s * f.units ∧
     (dashboardCompute f s).1.profitBeforeTax =
       (dashboardCompute f s).1.totalRevenue - (dashboardCompute f s).1.totalCost ∧
     (dashboardCompute f s).1.netProfit =
       (dashboardCompute f s).1.profitBeforeTax * (1 - adjustedTaxRate f s / 100) ∧
     (dashboardCompute f s).1.breakEvenUnits =
       adjustedFixedCost f s / (adjustedSellingPrice f s - adjustedVariableCost f s) ∧
     (dashboardCompute f s).1.breakEvenRevenue =
       (dashboardCompute f s).1.breakEvenUnits * adjustedSellingPrice f s) := by
  obtain ⟨h1, h2, rfl⟩ := calculateResults_some hb
  have hd : (dashboardCompute f s).1 = dashboardResults f s := by
    unfold dashboardCompute
    rw [if_pos hm]
  refine ⟨⟨rfl, rfl, rfl, rfl, rfl, rfl, rfl, rfl⟩, ?_⟩
  rw [hd]
  unfold dashboardResults breakEvenUnitsD contributionMargin
  refine ⟨mul_comm _ _, by ring, rfl, rfl, rfl, rfl⟩

/-- Witness for C3 at specification example scenario 1 (basic calculator)
and example scenario 2 (dashboard, no sensitivity adjustments). -/
theorem c3_reference_formulas_witness :
    calculateResults ⟨1000, 50000, 20, 35⟩ =
      some ⟨50, 20000, 70000, 70, 35000, -35000, 10000 / 3, 350000 / 3⟩ ∧
    0 < contributionMargin ⟨100, 10000, 15, 25, 30⟩ ⟨0, 0, 0, 0⟩ ∧
    (dashboardCompute ⟨100, 10000, 15, 25, 30⟩ ⟨0, 0, 0, 0⟩).1.netProfit =
      (dashboardCompute ⟨100, 10000, 15, 25, 30⟩ ⟨0, 0, 0, 0⟩).1.profitBeforeTax *
        (1 - adjustedTaxRate ⟨100, 10000, 15, 25, 30⟩ ⟨0, 0, 0, 0⟩ / 100) :=
  ⟨by norm_num [calculateResults, calculateResultsEff],
    by norm_num [contributionMargin, adjustedSellingPrice, adjustedVariableCost],
    (c3_reference_formulas ⟨1000, 50000, 20, 35⟩
      ⟨50, 20000, 70000, 70, 35000, -35000, 10000 / 3, 350000 / 3⟩
      ⟨100, 10000, 15, 25, 30⟩ ⟨0, 0, 0, 0⟩
      (by norm_num [calculateResults, calculateResultsEff])
      (by norm_num [contributionMargin, adjustedSellingPrice,
        adjustedVariableCost])).2.2.2.2.1⟩

/-- C8: round-trip identity, exact over the rationals: the returned
break-even quantity times the (adjusted) contribution margin recovers the
(adjusted) fixed cost, in both the basic calculator and the dashboard. -/
theorem c8_breakeven_roundtrip (d : FinancialData) (r : CalculationResults)
    (f : FormData) (s : SensitivityChanges)
    (hb : calculateResults d = some r) (hm : 0 < contributionMargin f s) :
    r.breakEvenUnits * (d.sellingPricePerUnit - d.variableCostPerUnit) =
      d.fixedCost ∧
    (dashboardCompute f s).1.breakEvenUnits *
      (adjustedSellingPrice f s - adjustedVariableCost f s) =
      adjustedFixedCost f s := by
  obtain ⟨h1, -, rfl⟩ := calculateResults_some hb
  constructor
  · have hne : d.sellingPricePerUnit - d.variableCostPerUnit ≠ 0 :=
      sub_ne_zero.mpr (fun he => h1 (le_of_eq he))
    exact div_mul_cancel₀ _ hne
  · have hd : (dashboardCompute f s).1 = dashboardResults f s := by
      unfold dashboardCompute
      rw [if_pos hm]
    rw [hd]
    unfold contributionMargin at hm
    unfold dashboardResults breakEvenUnitsD contributionMargin
    exact div_mul_cancel₀ _ (ne_of_gt hm)

/-- Witness for C8 at specification example scenarios 1 and 2. -/
theorem c8_breakeven_roundtrip_witness :
    calculateResults ⟨1000, 50000, 20, 35⟩ =
      some ⟨50, 20000, 70000, 70, 35000, -35000, 10000 / 3, 350000 / 3⟩ ∧
    0 < contributionMargin ⟨100, 10000, 15, 25, 30⟩ ⟨0, 0, 0, 0⟩ ∧
    (10000 / 3 : ℚ) *
      ((⟨1000, 50000, 20, 35⟩ : FinancialData).sellingPricePerUnit -
        (⟨1000, 50000, 20, 35⟩ : FinancialData).variableCostPerUnit) =
      (⟨1000, 50000, 20, 35⟩ : FinancialData).fixedCost :=
  ⟨by norm_num [calculateResults, calculateResultsEff],
    by norm_num [contributionMargin, adjustedSellingPrice, adjustedVariableCost],
    (c8_breakeven_roundtrip ⟨1000, 50000, 20, 35⟩
      ⟨50, 20000, 70000, 70, 35000, -35000, 10000 / 3, 350000 / 3⟩
      ⟨100, 10000, 15, 25, 30⟩ ⟨0, 0, 0, 0⟩
      (by norm_num [calculateResults, calculateResultsEff])
      (by norm_num [contributionMargin, adjustedSellingPrice,
        adjustedVariableCost])).1⟩

/-- C10: whenever the basic calculator returns a non-null results record,
the inputs satisfy `units > 0` and `sellingPricePerUnit > 0`, the revenue
is strictly positive, and every division performed on the accepted record
(the two per-unit costs and the consumer's profit margin) has a nonzero
denominator and is exact. -/
theorem c10_accepted_denominators (d : FinancialData) (r : CalculationResults)
    (hb : calculateResults d = some r) :
    0 < d.units ∧ 0 < d.sellingPricePerUnit ∧ 0 < r.salesRevenue ∧
    d.units ≠ 0 ∧ r.salesRevenue ≠ 0 ∧
    r.fixedCostPerUnit * d.units = d.fixedCost ∧
    r.totalCostPerUnit * d.units = r.totalCost ∧
    profitMargin r * r.salesRevenue = r.profitOrLoss * 100 := by
  obtain ⟨h1, h2, rfl⟩ := calculateResults_some hb
  push_neg at h2
  obtain ⟨hu, -, -, hp⟩ := h2
  have hrev : 0 < d.sellingPricePerUnit * d.units := mul_pos hp hu
  refine ⟨hu, hp, hrev, ne_of_gt hu, ne_of_gt hrev, ?_, ?_, ?_⟩
  · exact div_mul_cancel₀ _ (ne_of_gt hu)
  · exact div_mul_cancel₀ _ (ne_of_gt hu)
  · unfold profitMargin
    field_simp

/-- Witness for C10 at specification example scenario 1. -/
theorem c10_accepted_denominators_witness :
    calculateResults ⟨1000, 50000, 20, 35⟩ =
      some ⟨50, 20000, 70000, 70, 35000, -35000, 10000 / 3, 350000 / 3⟩ ∧
    0 < (⟨1000, 50000, 20, 35⟩ : FinancialData).units ∧
    (0 : ℚ) < 35000 :=
  ⟨by norm_num [calculateResults, calculateResultsEff],
    (c10_accepted_denominators ⟨1000, 50000, 20, 35⟩
      ⟨50, 20000, 70000, 70, 35000, -35000, 10000 / 3, 350000 / 3⟩
      (by norm_num [calculateResults, calculateResultsEff])).1,
    (c10_accepted_denominators ⟨1000, 50000, 20, 35⟩
      ⟨50, 20000, 70000, 70, 35000, -35000, 10000 / 3, 350000 / 3⟩
      (by norm_num [calculateResults, calculateResultsEff])).2.2.1⟩

/-- C4: for every dashboard input with positive adjusted contribution
margin, the generated table has one row per integer quantity 1 up to
`min(10, max(10, units))` — always exactly the quantities 1 through 10 —
plus one row for the exact target `units` appended after the 1-10 block
exactly when `units > 10`. -/
theorem c4_table_rows_shape (f : FormData) (s : SensitivityChanges)
    (hm : 0 < contributionMargin f s) :
    ((dashboardCompute f s).2.1).map TableData.cantidad =
      ((List.range 10).map (fun (k : ℕ) => ((k : ℚ) + 1))) ++
        (if 10 < f.units then [f.units] else []) ∧
    ((dashboardCompute f s).2.1).length =
      10 + (if 10 < f.units then 1 else 0) := by
  have hfloor : Int.toNat ⌊tableLoopBound f.units⌋ = 10 := by
    unfold tableLoopBound
    rw [min_eq_left (le_max_left (10 : ℚ) f.units)]
    norm_num
    rfl
  have ht : (dashboardCompute f s).2.1 = tableRows f s := by
    unfold dashboardCompute
    rw [if_pos hm]
  rw [ht]
  unfold tableRows
  rw [hfloor]
  constructor
  · rw [List.map_append, List.map_map]
    have h2 : List.map TableData.cantidad
        (if 10 < f.units then [mkTableRow f s f.units] else []) =
        (if 10 < f.units then [f.units] else []) := by
      by_cases hu : 10 < f.units
      · rw [if_pos hu, if_pos hu]; rfl
      · rw [if_neg hu, if_neg hu]; rfl
    rw [h2]
    rfl
  · rw [List.length_append, List.length_map, List.length_range]
    by_cases hu : 10 < f.units
    · rw [if_pos hu, if_pos hu]; rfl
    · rw [if_neg hu, if_neg hu]; rfl

/-- Witness for C4 at specification example scenario 2 (`units = 100`). -/
theorem c4_table_rows_shape_witness :
    0 < contributionMargin ⟨100, 10000, 15, 25, 30⟩ ⟨0, 0, 0, 0⟩ ∧
    ((dashboardCompute ⟨100, 10000, 15, 25, 30⟩ ⟨0, 0, 0, 0⟩).2.1).length =
      10 + (if 10 < (⟨100, 10000, 15, 25, 30⟩ : FormData).units then 1 else 0) :=
  ⟨by norm_num [contributionMargin, adjustedSellingPrice, adjustedVariableCost],
    (c4_table_rows_shape ⟨100, 10000, 15, 25, 30⟩ ⟨0, 0, 0, 0⟩
      (by norm_num [contributionMargin, adjustedSellingPrice,
        adjustedVariableCost])).2⟩

/-- C5, counterexample: the claim says table generation with `units = 5`
produces exactly 5 rows for quantities 1 through 5.  On the code the 1-10
loop bound `min(10, max(10, units))` is 10 for every `units`, so `units = 5`
produces 10 rows, for quantities 1 through 10. -/
theorem c5_units5_counterexample :
    ((dashboardCompute ⟨5, 10000, 15, 25, 30⟩ ⟨0, 0, 0, 0⟩).2.1).map
        TableData.cantidad = [1, 2, 3, 4, 5, 6, 7, 8, 9, 10] ∧
    ((dashboardCompute ⟨5, 10000, 15, 25, 30⟩ ⟨0, 0, 0, 0⟩).2.1).length ≠ 5 := by
  with_unfolding_all decide

/-- C5, amended: with `units = 5` the table has exactly 10 rows, for
quantities 1 through 10 (the 1-10 block is always complete), and no
appended row; with `units = 15` it has 11 rows, quantities 1 through 10
plus the appended 15. -/
theorem c5_table_row_counts :
    ((dashboardCompute ⟨5, 10000, 15, 25, 30⟩ ⟨0, 0, 0, 0⟩).2.1).length = 10 ∧
    ((dashboardCompute ⟨15, 10000, 15, 25, 30⟩ ⟨0, 0, 0, 0⟩).2.1).map
        TableData.cantidad = [1, 2, 3, 4, 5, 6, 7, 8, 9, 10, 15] ∧
    ((dashboardCompute ⟨15, 10000, 15, 25, 30⟩ ⟨0, 0, 0, 0⟩).2.1).length = 11 := by
  with_unfolding_all decide

/-- C6, counterexample: the claim says no user-facing toast is emitted
from inside the calculator.  On the record with selling price equal to the
variable cost the `toast(...)` call inside `calculateResults` runs. -/
theorem c6_toast_counterexample :
    (⟨1000, 50000, 35, 35⟩ : FinancialData).sellingPricePerUnit ≤
      (⟨1000, 50000, 35, 35⟩ : FinancialData).variableCostPerUnit ∧
    toastEmitted ⟨1000, 50000, 35, 35⟩ = true := by
  with_unfolding_all decide

/-- C6, amended: both computations are deterministic pure functions of
their inputs — identical parameters give identical outputs — but the basic
calculator is not free of side effects: the toast inside `calculateResults`
fires exactly when the contribution margin is zero or negative, while the
dashboard computation emits no toast at all. -/
theorem c6_deterministic_with_toast (d d' : FinancialData)
    (f f' : FormData) (s s' : SensitivityChanges) :
    (d = d' → calculateResultsEff d = calculateResultsEff d') ∧
    (f = f' → s = s' → dashboardCompute f s = dashboardCompute f' s') ∧
    (toastEmitted d = true ↔
      d.sellingPricePerUnit - d.variableCostPerUnit ≤ 0) := by
  refine ⟨fun h => by rw [h], fun h h' => by rw [h, h'], ?_⟩
  rw [sub_nonpos]
  unfold toastEmitted calculateResultsEff
  by_cases h1 : d.sellingPricePerUnit ≤ d.variableCostPerUnit
  · simp [h1]
  · by_cases h2 : d.units ≤ 0 ∨ d.fixedCost < 0 ∨ d.variableCostPerUnit < 0 ∨
        d.sellingPricePerUnit ≤ 0
    · simp [h1, h2]
    · simp [h1, h2]

/-- Witness for the amended C6 at two copies of scenario 1's record. -/
theorem c6_deterministic_with_toast_witness :
    (⟨1000, 50000, 20, 35⟩ : FinancialData) = ⟨1000, 50000, 20, 35⟩ ∧
    calculateResultsEff ⟨1000, 50000, 20, 35⟩ =
      calculateResultsEff ⟨1000, 50000, 20, 35⟩ :=
  ⟨rfl, (c6_deterministic_with_toast ⟨1000, 50000, 20, 35⟩ ⟨1000, 50000, 20, 35⟩
    ⟨100, 10000, 15, 25, 30⟩ ⟨100, 10000, 15, 25, 30⟩
    ⟨0, 0, 0, 0⟩ ⟨0, 0, 0, 0⟩).1 rfl⟩

/-- C9: a text-field input string on which `parseFloat` fails (`NaN`)
makes both input handlers store the default value zero instead of
propagating the parse failure, in the basic form (`InputField.handleChange`)
and in the dashboard (`handleInputChange`, after the 12-character cut). -/
theorem c9_parse_fallback_zero (s t : String)
    (h1 : jsParseFloat s = none) (h2 : jsParseFloat (truncate12 t) = none) :
    handleChangeValue s = 0 ∧ handleInputChangeValue t = 0 := by
  unfold handleChangeValue handleInputChangeValue jsOrZero
  rw [h1, h2]
  exact ⟨rfl, rfl⟩

/-- Witness for C9 at the non-numeric string "hola". -/
theorem c9_parse_fallback_zero_witness :
    jsParseFloat "hola" = none ∧
    jsParseFloat (truncate12 "hola") = none ∧
    handleChangeValue "hola" = 0 ∧ handleInputChangeValue "hola" = 0 :=
  ⟨by with_unfolding_all decide, by with_unfolding_all decide,
    (c9_parse_fallback_zero "hola" "hola" (by with_unfolding_all decide)
      (by with_unfolding_all decide)).1,
    (c9_parse_fallback_zero "hola" "hola" (by with_unfolding_all decide)
      (by with_unfolding_all decide)).2⟩

/-- Characterization of the loop grid: for a positive step, the visited
quantities are exactly the multiples of the step not exceeding the bound. -/
lemma mem_gridQuantities {hi st : ℤ} (hst : 1 ≤ st) (q : ℤ) :
    q ∈ gridQuantities hi st ↔ ∃ k : ℕ, q = (k : ℤ) * st ∧ q ≤ hi := by
  have hst0 : 0 < st.toNat := by omega
  have hstc : (st.toNat : ℤ) = st := Int.toNat_of_nonneg (by omega)
  unfold gridQuantities
  by_cases hhi : hi < 0
  · rw [if_pos hhi]
    simp only [List.not_mem_nil, false_iff]
    rintro ⟨k, rfl, hle⟩
    have hk0 : (0 : ℤ) ≤ (k : ℤ) * st :=
      mul_nonneg (Int.natCast_nonneg k) (by omega)
    omega
  · have hhic : (hi.toNat : ℤ) = hi := Int.toNat_of_nonneg (by omega)
    rw [if_neg hhi]
    simp only [List.mem_map, List.mem_range]
    constructor
    · rintro ⟨k, hk, rfl⟩
      refine ⟨k, rfl, ?_⟩
      have hk2 : k ≤ hi.toNat / st.toNat := Nat.lt_succ_iff.mp hk
      have hk3 : k * st.toNat ≤ hi.toNat :=
        (Nat.le_div_iff_mul_le hst0).mp hk2
      have hk4 : ((k * st.toNat : ℕ) : ℤ) ≤ ((hi.toNat : ℕ) : ℤ) :=
        Int.ofNat_le.mpr hk3
      push_cast [hstc] at hk4
      omega
    · rintro ⟨k, rfl, hle⟩
      refine ⟨k, ?_, rfl⟩
      rw [Nat.lt_succ_iff, Nat.le_div_iff_mul_le hst0]
      have hk4 : ((k * st.toNat : ℕ) : ℤ) ≤ ((hi.toNat : ℕ) : ℤ) := by
        push_cast [hstc]
        omega
      exact_mod_cast hk4

/-- The chart series is sorted by quantity: the final `sort` of line 224
produces a list pairwise ordered by `cantidad`. -/
lemma pairwise_chartPoints (f : FormData) (s : SensitivityChanges) :
    List.Pairwise (fun a b : ChartData => a.cantidad ≤ b.cantidad)
      (chartPoints f s) := by
  unfold chartPoints
  have h := @List.sorted_mergeSort ChartData
    (fun a b : ChartData => decide (a.cantidad ≤ b.cantidad))
    (fun a b c hab hbc => by
      simp only [decide_eq_true_eq] at hab hbc ⊢
      exact le_trans hab hbc)
    (fun a b => by
      simp only [Bool.or_eq_true, decide_eq_true_eq]
      exact le_total a.cantidad b.cantidad)
    (chartWithTarget f s)
  exact h.imp (fun hab => of_decide_eq_true hab)

/-- C7: for every dashboard input with positive adjusted contribution
margin the chart series consists of the even grid — exactly the multiples
of `step = max(1, floor(range/20))` from 0 up to
`range = ceil(max(units, breakEvenUnits) * 1.2)` — plus the forced
break-even point, appended exactly when no generated point lies within
half a step of the break-even quantity, plus the forced target point,
appended exactly when no point so far lies within half a step of `units`;
and the final series is sorted ascending by quantity. -/
theorem c7_chart_series (f : FormData) (s : SensitivityChanges)
    (hm : 0 < contributionMargin f s) :
    (∀ q : ℤ, q ∈ gridQuantities (chartRange f s) (chartStep f s) ↔
      ∃ k : ℕ, q = (k : ℤ) * chartStep f s ∧ q ≤ chartRange f s) ∧
    chartWithBE f s = chartBase f s ++
      (if nearAny (chartBase f s) (breakEvenUnitsD f s) (chartStep f s) then []
       else [mkChartPoint f s (breakEvenUnitsD f s)]) ∧
    chartWithTarget f s = chartWithBE f s ++
      (if nearAny (chartWithBE f s) f.units (chartStep f s) then []
       else [mkChartPoint f s f.units]) ∧
    ((dashboardCompute f s).2.2).Perm (chartWithTarget f s) ∧
    List.Pairwise (fun a b : ChartData => a.cantidad ≤ b.cantidad)
      ((dashboardCompute f s).2.2) := by
  have hst : 1 ≤ chartStep f s := by
    unfold chartStep
    exact le_max_left _ _
  have hc : (dashboardCompute f s).2.2 = chartPoints f s := by
    unfold dashboardCompute
    rw [if_pos hm]
  refine ⟨fun q => mem_gridQuantities hst q, ?_, ?_, ?_, ?_⟩
  · unfold chartWithBE
    by_cases hb : nearAny (chartBase f s) (breakEvenUnitsD f s) (chartStep f s) = true
    · rw [if_pos hb, if_pos hb, List.append_nil]
    · rw [if_neg hb, if_neg hb]
  · unfold chartWithTarget
    by_cases hb : nearAny (chartWithBE f s) f.units (chartStep f s) = true
    · rw [if_pos hb, if_pos hb, List.append_nil]
    · rw [if_neg hb, if_neg hb]
  · rw [hc]
    unfold chartPoints
    exact List.mergeSort_perm _ _
  · rw [hc]
    exact pairwise_chartPoints f s

/-- Witness for C7 at specification example scenario 2. -/
theorem c7_chart_series_witness :
    0 < contributionMargin ⟨100, 10000, 15, 25, 30⟩ ⟨0, 0, 0, 0⟩ ∧
    List.Pairwise (fun a b : ChartData => a.cantidad ≤ b.cantidad)
      ((dashboardCompute ⟨100, 10000, 15, 25, 30⟩ ⟨0, 0, 0, 0⟩).2.2) :=
  ⟨by norm_num [contributionMargin, adjustedSellingPrice, adjustedVariableCost],
    (c7_chart_series ⟨100, 10000, 15, 25, 30⟩ ⟨0, 0, 0, 0⟩
      (by norm_num [contributionMargin, adjustedSellingPrice,
        adjustedVariableCost])).2.2.2.2⟩

end CVP
